import Mathlib

/-!
# react-movie-trailers: the fetch orchestrator and the trailer lookup

A shallow embedding of `src/App.jsx` (`fetchMovies`, the committed-term effect,
the IntersectionObserver effect) and of `src/components/MovieCard.jsx`
(`fetchTrailer`, `handlePlayTrailer`).

Conventions of the embedding.

* The network is an input: every function that awaits `fetch` receives the
  outcome of that request as an argument.
* React state setters do not run the update in place, they enqueue it.  A
  function of the component therefore returns the list of updates it enqueued
  (`Update`), and `commit` applies them, in order, to the state.  An updater
  function passed to a setter runs inside `commit`, outside the `try` block
  that enqueued it.
* A component function reads the state through the closure of the render that
  created it; that snapshot is the `AppState` / `CardState` argument.
* A JavaScript value that should be an array but may be `undefined` or `null`
  is an `Option (List _)`; `none` stands for the value that is not an array.
* The page counter is a natural number.
-/

namespace MovieTrailers

/-! ## JavaScript values -/

/-- Truthiness of a JavaScript string: only the empty string is falsy. -/
def truthy (s : String) : Bool := s != ""

/-- Truthiness of a value that is a string, `null` or `undefined`. -/
def truthyKey : Option String → Bool
  | none => false
  | some k => truthy k

/-- The exceptions that occur in the modelled code. -/
inductive JsError
  /-- A `TypeError`: property read on `null`/`undefined`, spread of a non-iterable. -/
  | typeError
  /-- The rejection of `response.json()` on a body that is not JSON. -/
  | syntaxError
  /-- The rejection of `fetch` itself (transport error). -/
  | networkError
  /-- An `Error` object built by `new Error(msg)`. -/
  | error (msg : String)
deriving DecidableEq, Repr

/-- A parsed response body `data`.  `null` is the JSON value `null`, on which
`data.results` throws; every other value is `object r` with `r` the value of
`data.results` (`none` when the field is missing or `null`). -/
inductive ParsedBody (α : Type)
  | null
  | object (results : Option (List α))
deriving DecidableEq, Repr

/-- What `await response.json()` gives. -/
inductive Body (α : Type)
  | unparsable
  | parsed (data : ParsedBody α)
deriving DecidableEq, Repr

/-- What `await fetch(endpoint, options)` gives: a rejection, or a response
with its `ok` flag (true exactly for a 2xx status) and its body. -/
inductive FetchOutcome (α : Type)
  | networkError
  | response (ok : Bool) (body : Body α)
deriving DecidableEq, Repr

/-- Outcome of awaiting a promise that carries no value. -/
inductive Completion
  | resolved
  | rejected (e : JsError)
deriving DecidableEq, Repr

/-- The expression `data.results`. -/
def ParsedBody.getResults {α : Type} : ParsedBody α → Except JsError (Option (List α))
  | .null => .error .typeError
  | .object r => .ok r

/-- The spread `...v` inside an array literal. -/
def spread {α : Type} : Option (List α) → Except JsError (List α)
  | none => .error .typeError
  | some xs => .ok xs

/-! ## Data model of `App.jsx` -/

/-- A movie record of the metadata API (the fields the components read). -/
structure Movie where
  id : Nat
  title : String
  poster_path : Option String
deriving DecidableEq, Repr

/-- The three URLs the application requests.  The URL text is abstracted to
the endpoint and the one parameter that varies. -/
inductive Endpoint
  | search (query : String)
  | discover (page : Nat)
  | videos (movieId : Nat)
deriving DecidableEq, Repr

/-- An outbound call. -/
inductive Call
  | fetch (e : Endpoint)
  | updateSearchCount (query : String) (movie : Movie)
deriving DecidableEq, Repr

/-- The `useState` cells of `App` that `fetchMovies` and the effects touch. -/
structure AppState where
  debouncedSearchTerm : String
  movieList : Option (List Movie)
  isLoading : Bool
  errorMessage : String
  page : Nat
deriving DecidableEq, Repr

/-- The state updates `App` enqueues. -/
inductive Update
  /-- The call `setIsLoading(b)`. -/
  | setIsLoading (b : Bool)
  /-- The call `setErrorMessage(msg)`. -/
  | setErrorMessage (msg : String)
  /-- The call `setMovieList(value)` with a plain value. -/
  | setMovieList (value : Option (List Movie))
  /-- The call `setMovieList((prev) => reset ? data.results : [...prev, ...data.results])`;
  `reset` and `data` are the variables the updater closes over. -/
  | setMovieListDiscover (reset : Bool) (data : ParsedBody Movie)
  /-- The call `setPage(n)`. -/
  | setPage (n : Nat)
  /-- The call `setPage((prev) => prev + 1)`. -/
  | setPageNext
deriving DecidableEq, Repr

/-- The updater `(prev) => reset ? data.results : [...prev, ...data.results]`. -/
def discoverUpdater (reset : Bool) (data : ParsedBody Movie)
    (prev : Option (List Movie)) : Except JsError (Option (List Movie)) :=
  if reset then data.getResults
  else
    match spread prev with
    | .error e => .error e
    | .ok ps =>
      match data.getResults with
      | .error e => .error e
      | .ok r =>
        match spread r with
        | .error e => .error e
        | .ok rs => .ok (some (ps ++ rs))

/-- One enqueued update applied to the state. -/
def applyUpdate (s : AppState) : Update → Except JsError AppState
  | .setIsLoading b => .ok { s with isLoading := b }
  | .setErrorMessage msg => .ok { s with errorMessage := msg }
  | .setMovieList v => .ok { s with movieList := v }
  | .setMovieListDiscover reset data =>
    match discoverUpdater reset data s.movieList with
    | .error e => .error e
    | .ok v => .ok { s with movieList := v }
  | .setPage n => .ok { s with page := n }
  | .setPageNext => .ok { s with page := s.page + 1 }

/-- The enqueued updates applied in order; an exception thrown by an updater
escapes (no handler surrounds it). -/
def commit : AppState → List Update → Except JsError AppState
  | s, [] => .ok s
  | s, u :: us =>
    match applyUpdate s u with
    | .error e => .error e
    | .ok s1 => commit s1 us

/-- What one run of an asynchronous component function did. -/
structure Run where
  updates : List Update
  calls : List Call
deriving DecidableEq, Repr

/-- What the `try` block of `fetchMovies` did before it ended or threw. -/
structure TryResult where
  updates : List Update
  calls : List Call
  thrown : Option JsError
deriving DecidableEq, Repr

/-- The fixed message `fetchMovies` shows on failure. -/
def fetchErrorMessage : String := "Failed to fetch movies. Try again later."

/-- The `try` block of `fetchMovies` (`App.jsx` lines 39-57).  `render` is the
state the closure sees, `net` the outcome of the request, `usc` the outcome of
awaiting `updateSearchCount(query, movie)`. -/
def fetchMoviesTry (render : AppState) (query : String) (reset : Bool)
    (net : FetchOutcome Movie) (usc : String → Movie → Completion) : TryResult :=
  let endpoint := if truthy query then Endpoint.search query else Endpoint.discover render.page
  match net with
  | .networkError => ⟨[], [.fetch endpoint], some .networkError⟩
  | .response false _ => ⟨[], [.fetch endpoint], some (.error "Failed to fetch movies")⟩
  | .response true .unparsable => ⟨[], [.fetch endpoint], some .syntaxError⟩
  | .response true (.parsed data) =>
    if truthy query then
      match data with
      | .null => ⟨[], [.fetch endpoint], some .typeError⟩
      | .object none => ⟨[.setMovieList (some [])], [.fetch endpoint], some .typeError⟩
      | .object (some []) => ⟨[.setMovieList (some [])], [.fetch endpoint], none⟩
      | .object (some (m :: ms)) =>
        ⟨[.setMovieList (some (m :: ms))], [.fetch endpoint, .updateSearchCount query m],
          match usc query m with
          | .resolved => none
          | .rejected e => some e⟩
    else
      ⟨[.setMovieListDiscover reset data, .setPageNext], [.fetch endpoint], none⟩

/-- The function `fetchMovies(query, reset)` (`App.jsx` lines 35-64): the two
setter calls before `try`, the `try` block, the `catch` clause when the block
threw, and the `finally` clause. -/
def fetchMovies (render : AppState) (query : String) (reset : Bool)
    (net : FetchOutcome Movie) (usc : String → Movie → Completion) : Run :=
  let t := fetchMoviesTry render query reset net usc
  { updates :=
      [.setIsLoading true, .setErrorMessage ""] ++ t.updates ++
        (match t.thrown with
         | none => []
         | some _ => [.setErrorMessage fetchErrorMessage]) ++
        [.setIsLoading false]
    calls := t.calls }

/-- The effect on `[debouncedSearchTerm]` (`App.jsx` lines 75-78):
`setPage(1); fetchMovies(debouncedSearchTerm, true)`. -/
def committedTermEffect (render : AppState) (net : FetchOutcome Movie)
    (usc : String → Movie → Completion) : Run :=
  let r := fetchMovies render render.debouncedSearchTerm true net usc
  { updates := .setPage 1 :: r.updates, calls := r.calls }

/-- The argument pairs of the `updateSearchCount` calls among the calls of a
run, one entry per call. -/
def searchCountCalls (cs : List Call) : List (String × Movie) :=
  cs.filterMap fun c =>
    match c with
    | .updateSearchCount q m => some (q, m)
    | .fetch _ => none

/-- A 2xx response whose body parses to an object with the array `rs` as `results`. -/
def okResponse {α : Type} (rs : List α) : FetchOutcome α :=
  .response true (.parsed (.object (some rs)))

/-- Outcome of the document-store write behind `updateSearchCount`. -/
inductive WriteOutcome
  | stored
  | failed (e : JsError)
deriving DecidableEq, Repr

/-- Modelled from the spec: `updateSearchCount` of `./appwrite`, imported by
`App.jsx` and absent from the sources.  The spec gives it as
`recordSearch(query, movie) -> void`, an upsert-with-increment, and says that
trending-write failures are swallowed entirely (logged only): the promise it
returns resolves whatever the write did. -/
def updateSearchCount (write : String → Movie → WriteOutcome) (query : String)
    (movie : Movie) : Completion :=
  match write query movie with
  | .stored => .resolved
  | .failed _ => .resolved

/-- The list section of the render (`App.jsx` lines 145-160): the error
paragraph when `errorMessage` is truthy, otherwise `movieList.map(...)`, which
throws when `movieList` is not an array.  The result is the number of cards. -/
def renderMovieSection (s : AppState) : Except JsError Nat :=
  if truthy s.errorMessage then .ok 0
  else
    match s.movieList with
    | none => .error .typeError
    | some ms => .ok ms.length

/-! ## The IntersectionObserver effect (`App.jsx` lines 93-111) -/

/-- A call `fetchMovies(query, reset)` made by a callback. -/
structure FetchMoviesCall where
  query : String
  reset : Bool
deriving DecidableEq, Repr

/-- One `IntersectionObserver` made by a run of the effect: the `isLoading`
its callback closes over, whether `loaderRef.current` was non-null in that
run, and whether it observes the sentinel at present. -/
structure Observer where
  isLoading : Bool
  currentLoader : Bool
  observing : Bool
deriving DecidableEq, Repr

/-- The callback `(entries) => { if (entries[0].isIntersecting && !isLoading) fetchMovies(); }`;
`fetchMovies()` takes its defaults `query = ""` and `reset = false`. -/
def Observer.callback (o : Observer) (isIntersecting : Bool) : List FetchMoviesCall :=
  if isIntersecting && !o.isLoading then [⟨"", false⟩] else []

/-- The cleanup `() => { if (currentLoader) observer.unobserve(currentLoader); }`. -/
def Observer.cleanup (o : Observer) : Observer :=
  if o.currentLoader then { o with observing := false } else o

/-- The body of the effect: `if (debouncedSearchTerm) return;` and otherwise a
new observer, which observes the sentinel when `loaderRef.current` is set.
`none` is the early return, which registers nothing and returns no cleanup. -/
def observerEffect (debouncedSearchTerm : String) (isLoading : Bool)
    (currentLoader : Bool) : Option Observer :=
  if truthy debouncedSearchTerm then none
  else some { isLoading := isLoading, currentLoader := currentLoader, observing := currentLoader }

/-- The sentinel `<div ref={loaderRef}>` is rendered, and `loaderRef.current`
set, exactly when `!debouncedSearchTerm` (`App.jsx` lines 161-165). -/
def sentinelRendered (debouncedSearchTerm : String) : Bool := !truthy debouncedSearchTerm

/-- The observers that exist: the one of the latest run of the effect, whose
cleanup is pending, and those of earlier runs, already cleaned up. -/
structure ObserverState where
  current : Option Observer
  retired : List Observer
deriving DecidableEq, Repr

/-- No effect has run yet. -/
def ObserverState.init : ObserverState := ⟨none, []⟩

/-- A render with new values of the dependencies `[debouncedSearchTerm, isLoading]`:
the cleanup of the previous run, then the effect body. -/
def rerender (st : ObserverState) (debouncedSearchTerm : String) (isLoading : Bool) :
    ObserverState :=
  { current := observerEffect debouncedSearchTerm isLoading (sentinelRendered debouncedSearchTerm)
    retired :=
      match st.current with
      | none => st.retired
      | some o => o.cleanup :: st.retired }

/-- The renders of a history of dependency values, from the mount on. -/
def rerenders (history : List (String × Bool)) : ObserverState :=
  history.foldl (fun st d => rerender st d.1 d.2) ObserverState.init

/-- A sentinel-visibility event: the browser runs the callback of every
observer that observes the sentinel.  The result lists the `fetchMovies` calls. -/
def sentinelVisibility (st : ObserverState) (isIntersecting : Bool) : List FetchMoviesCall :=
  (((st.current.toList ++ st.retired).filter fun o => o.observing).map
    fun o => o.callback isIntersecting).flatten

/-! ## `MovieCard.jsx` -/

/-- An entry of the videos endpoint.  `key` is `none` when the field is missing. -/
structure Video where
  site : String
  type : String
  key : Option String
deriving DecidableEq, Repr

/-- The first predicate of `fetchTrailer`:
`vid.site === "YouTube" && vid.type === "Trailer" && vid.key`. -/
def isYouTubeTrailer (vid : Video) : Bool :=
  vid.site == "YouTube" && vid.type == "Trailer" && truthyKey vid.key

/-- The fallback predicate of `fetchTrailer`: `vid.site === "YouTube" && vid.key`. -/
def isYouTubeVideo (vid : Video) : Bool :=
  vid.site == "YouTube" && truthyKey vid.key

/-- The selection of `fetchTrailer` (lines 25-41) on the array `data.results`. -/
def selectTrailer (results : List Video) : Option String :=
  if results.length = 0 then none
  else
    match results.find? isYouTubeTrailer with
    | some trailer => trailer.key
    | none =>
      match results.find? isYouTubeVideo with
      | some trailer => trailer.key
      | none => none

/-- The function `fetchTrailer(movieId)` (`MovieCard.jsx` lines 6-46); `none`
is the `null` it returns.  Every exception is caught and gives `null`. -/
def fetchTrailer (net : FetchOutcome Video) : Option String :=
  match net with
  | .networkError => none
  | .response false _ => none
  | .response true .unparsable => none
  | .response true (.parsed .null) => none
  | .response true (.parsed (.object none)) => none
  | .response true (.parsed (.object (some results))) => selectTrailer results

/-- The `useState` cells of one `MovieCard` instance. -/
structure CardState where
  trailerKey : Option String
  modalVisible : Bool
  loadingTrailer : Bool
  trailerUnavailable : Bool
deriving DecidableEq, Repr

/-- The state of a freshly mounted card. -/
def CardState.init : CardState := ⟨none, false, false, false⟩

/-- The handler `handlePlayTrailer` (`MovieCard.jsx` lines 56-71) of a card
for the movie `id`: the state after its updates and the calls it made.  `net`
is the outcome of the videos request, used only when the handler fetches. -/
def handlePlayTrailer (id : Nat) (s : CardState) (net : FetchOutcome Video) :
    CardState × List Call :=
  let s1 := { s with modalVisible := true }
  if !truthyKey s.trailerKey && !s.trailerUnavailable then
    let key := fetchTrailer net
    let s2 := { s1 with loadingTrailer := false }
    if !truthyKey key then
      ({ s2 with trailerUnavailable := true }, [.fetch (.videos id)])
    else
      ({ s2 with trailerKey := key }, [.fetch (.videos id)])
  else (s1, [])

/-- The handler `handleCloseTrailer`. -/
def handleCloseTrailer (s : CardState) : CardState :=
  { s with modalVisible := false }

/-- A user event on a card: a play request (with the outcome the videos
request would have) or a close of the modal. -/
inductive CardEvent
  | play (net : FetchOutcome Video)
  | close
deriving DecidableEq, Repr

/-- A sequence of events on one card instance: the final state and all calls. -/
def runCard (id : Nat) : CardState → List CardEvent → CardState × List Call
  | s, [] => (s, [])
  | s, .play net :: evs =>
    let r := handlePlayTrailer id s net
    let rest := runCard id r.1 evs
    (rest.1, r.2 ++ rest.2)
  | s, .close :: evs => runCard id (handleCloseTrailer s) evs

/-- A card whose trailer lookup has resolved: a truthy key is stored, or the
card is marked unavailable. -/
def CardState.resolved (s : CardState) : Bool :=
  truthyKey s.trailerKey || s.trailerUnavailable

/-- The selection in the words of the specification, which does not mention
the key: the key of the first entry with site YouTube and type Trailer,
otherwise the key of the first entry with site YouTube, otherwise `null`. -/
def selectTrailerAsSpecified (results : List Video) : Option String :=
  match results.find? fun vid => vid.site == "YouTube" && vid.type == "Trailer" with
  | some trailer => trailer.key
  | none =>
    match results.find? fun vid => vid.site == "YouTube" with
    | some trailer => trailer.key
    | none => none

end MovieTrailers

namespace MovieTrailers

/-! ## Theorems -/

theorem truthy_of_ne {q : String} (h : q ≠ "") : truthy q = true := by
  simp [truthy, h]

/-- C1: with an empty query and a successful discover response, `fetchMovies`
with `reset = false` requests the page the closure holds, appends the response
results to the prior list, and advances the page counter by one. -/
theorem fetchMovies_discover_appends (s : AppState) (prev rs : List Movie)
    (usc : String → Movie → Completion) (hprev : s.movieList = some prev) :
    (fetchMovies s "" false (okResponse rs) usc).calls = [.fetch (.discover s.page)] ∧
    commit s (fetchMovies s "" false (okResponse rs) usc).updates =
      .ok { s with movieList := some (prev ++ rs), page := s.page + 1,
                   isLoading := false, errorMessage := "" } := by
  constructor
  · rfl
  · simp [fetchMovies, fetchMoviesTry, okResponse, truthy, commit, applyUpdate,
      discoverUpdater, spread, ParsedBody.getResults, hprev]

/-- C1, at page 3: a discover fetch on a one-movie list appends the two
response movies and moves the page counter to 4. -/
theorem fetchMovies_discover_appends_witness :
    (fetchMovies ⟨"", some [⟨1, "a", none⟩], false, "", 3⟩ "" false
        (okResponse [⟨2, "b", none⟩, ⟨3, "c", none⟩]) (fun _ _ => .resolved)).calls
      = [.fetch (.discover 3)] ∧
    commit ⟨"", some [⟨1, "a", none⟩], false, "", 3⟩
      (fetchMovies ⟨"", some [⟨1, "a", none⟩], false, "", 3⟩ "" false
        (okResponse [⟨2, "b", none⟩, ⟨3, "c", none⟩]) (fun _ _ => .resolved)).updates
      = .ok ⟨"", some [⟨1, "a", none⟩, ⟨2, "b", none⟩, ⟨3, "c", none⟩], false, "", 4⟩ :=
  fetchMovies_discover_appends ⟨"", some [⟨1, "a", none⟩], false, "", 3⟩ [⟨1, "a", none⟩]
    [⟨2, "b", none⟩, ⟨3, "c", none⟩] (fun _ _ => .resolved) rfl

/-- C2: when the committed term is non-empty and the search response succeeds,
the committed-term effect leaves the list equal to the response results and the
page counter at 1; and a search call of `fetchMovies`, whatever its reset flag,
replaces the list by the results and leaves the page counter as it was.  This
holds whether the awaited `updateSearchCount` resolves or rejects. -/
theorem search_replaces_list (s : AppState) (rs : List Movie)
    (usc : String → Movie → Completion) (hterm : s.debouncedSearchTerm ≠ "") :
    (∃ s1, commit s (committedTermEffect s (okResponse rs) usc).updates = .ok s1 ∧
      s1.movieList = some rs ∧ s1.page = 1) ∧
    (∀ reset, ∃ s2,
      commit s (fetchMovies s s.debouncedSearchTerm reset (okResponse rs) usc).updates = .ok s2 ∧
      s2.movieList = some rs ∧ s2.page = s.page) := by
  have ht := truthy_of_ne hterm
  constructor
  · cases rs with
    | nil =>
      simp [committedTermEffect, fetchMovies, fetchMoviesTry, okResponse, ht, commit, applyUpdate]
    | cons m ms =>
      cases hu : usc s.debouncedSearchTerm m <;>
        simp [committedTermEffect, fetchMovies, fetchMoviesTry, okResponse, ht, hu, commit,
          applyUpdate]
  · intro reset
    cases rs with
    | nil =>
      simp [fetchMovies, fetchMoviesTry, okResponse, ht, commit, applyUpdate]
    | cons m ms =>
      cases hu : usc s.debouncedSearchTerm m <;>
        simp [fetchMovies, fetchMoviesTry, okResponse, ht, hu, commit, applyUpdate]

/-- C2, from the empty term to "batman": a list of one discover movie at page 5
becomes the one search result, and the page counter is 1. -/
theorem search_replaces_list_witness :
    ∃ s1, commit ⟨"batman", some [⟨1, "a", none⟩], false, "", 5⟩
        (committedTermEffect ⟨"batman", some [⟨1, "a", none⟩], false, "", 5⟩
          (okResponse [⟨7, "Batman", none⟩]) (fun _ _ => .resolved)).updates = .ok s1 ∧
      s1.movieList = some [⟨7, "Batman", none⟩] ∧ s1.page = 1 :=
  (search_replaces_list ⟨"batman", some [⟨1, "a", none⟩], false, "", 5⟩ [⟨7, "Batman", none⟩]
    (fun _ _ => .resolved) (by decide)).1

/-- C3: a successful search call of `fetchMovies` calls `updateSearchCount`
exactly once, with the query and the first result, when the results are
non-empty; it makes no such call when they are empty, and then the list is
empty afterwards.  A discover call (empty query) never calls it, whatever the
outcome of the request. -/
theorem search_count_calls (s : AppState) (q : String) (reset : Bool)
    (usc : String → Movie → Completion) (hq : q ≠ "") :
    (∀ m ms, searchCountCalls (fetchMovies s q reset (okResponse (m :: ms)) usc).calls
      = [(q, m)]) ∧
    (searchCountCalls (fetchMovies s q reset (okResponse []) usc).calls = [] ∧
      ∃ s1, commit s (fetchMovies s q reset (okResponse []) usc).updates = .ok s1 ∧
        s1.movieList = some []) ∧
    (∀ net, searchCountCalls (fetchMovies s "" reset net usc).calls = []) := by
  have ht := truthy_of_ne hq
  refine ⟨?_, ⟨?_, ?_⟩, ?_⟩
  · intro m ms
    simp [fetchMovies, fetchMoviesTry, okResponse, ht, searchCountCalls]
  · simp [fetchMovies, fetchMoviesTry, okResponse, ht, searchCountCalls]
  · simp [fetchMovies, fetchMoviesTry, okResponse, ht, commit, applyUpdate]
  · intro net
    rcases net with _ | ⟨ok, body⟩
    · simp [fetchMovies, fetchMoviesTry, truthy, searchCountCalls]
    · cases ok <;> cases body <;>
        simp [fetchMovies, fetchMoviesTry, truthy, searchCountCalls]

/-- C3, for the query "batman" and two results: one call, with the first result. -/
theorem search_count_calls_witness :
    searchCountCalls (fetchMovies ⟨"batman", some [], false, "", 1⟩ "batman" true
      (okResponse [⟨7, "Batman", none⟩, ⟨8, "Batman Returns", none⟩])
      (fun _ _ => .resolved)).calls = [("batman", ⟨7, "Batman", none⟩)] :=
  (search_count_calls ⟨"batman", some [], false, "", 1⟩ "batman" true (fun _ _ => .resolved)
    (by decide)).1 ⟨7, "Batman", none⟩ [⟨8, "Batman Returns", none⟩]

/-- C4: when the movie request is rejected (transport error) or answered with
a non-2xx response, `fetchMovies` leaves the list and the page counter at
their prior values, makes no `updateSearchCount` call, and sets the error
message to the fixed string, for every prior state, query and reset flag. -/
theorem fetch_failure_keeps_list (s : AppState) (q : String) (reset : Bool)
    (usc : String → Movie → Completion) (net : FetchOutcome Movie)
    (hfail : net = .networkError ∨ ∃ body, net = .response false body) :
    (∃ s1, commit s (fetchMovies s q reset net usc).updates = .ok s1 ∧
      s1.movieList = s.movieList ∧ s1.page = s.page ∧
      s1.errorMessage = "Failed to fetch movies. Try again later.") ∧
    searchCountCalls (fetchMovies s q reset net usc).calls = [] := by
  rcases hfail with rfl | ⟨body, rfl⟩ <;>
    simp [fetchMovies, fetchMoviesTry, commit, applyUpdate, searchCountCalls, fetchErrorMessage]

/-- C4, for a non-2xx answer to a search at page 2 with one movie listed. -/
theorem fetch_failure_keeps_list_witness :
    (∃ s1, commit ⟨"batman", some [⟨1, "a", none⟩], false, "", 2⟩
        (fetchMovies ⟨"batman", some [⟨1, "a", none⟩], false, "", 2⟩ "batman" true
          (.response false .unparsable) (fun _ _ => .resolved)).updates = .ok s1 ∧
      s1.movieList = some [⟨1, "a", none⟩] ∧ s1.page = 2 ∧
      s1.errorMessage = "Failed to fetch movies. Try again later.") ∧
    searchCountCalls (fetchMovies ⟨"batman", some [⟨1, "a", none⟩], false, "", 2⟩ "batman" true
      (.response false .unparsable) (fun _ _ => .resolved)).calls = [] :=
  fetch_failure_keeps_list ⟨"batman", some [⟨1, "a", none⟩], false, "", 2⟩ "batman" true
    (fun _ _ => .resolved) (.response false .unparsable) (Or.inr ⟨_, rfl⟩)

/-- The `await` of `updateSearchCount` stands inside the `try` block: were its
promise to reject, the `catch` clause would set the fixed error message, with
the list already replaced by the results. -/
theorem fetchMovies_rejected_await_sets_error (s : AppState) (q : String) (reset : Bool)
    (m : Movie) (ms : List Movie) (usc : String → Movie → Completion) (e : JsError)
    (hq : q ≠ "") (hrej : usc q m = .rejected e) :
    commit s (fetchMovies s q reset (okResponse (m :: ms)) usc).updates
      = .ok { s with movieList := some (m :: ms), isLoading := false,
                     errorMessage := fetchErrorMessage } := by
  have ht := truthy_of_ne hq
  simp [fetchMovies, fetchMoviesTry, okResponse, ht, hrej, commit, applyUpdate]

/-- C5: for a successful non-empty search whose trending write fails,
`fetchMovies` ends in the state it ends in when the write is stored: the
error message is empty, loading is false and the list equals the search
results.  (`updateSearchCount` is the spec model: it logs the failure and
resolves.) -/
theorem trending_write_failure_swallowed (s : AppState) (q : String) (reset : Bool)
    (m : Movie) (ms : List Movie) (write : String → Movie → WriteOutcome) (e : JsError)
    (hq : q ≠ "") (hwrite : write q m = .failed e) :
    commit s (fetchMovies s q reset (okResponse (m :: ms)) (updateSearchCount write)).updates
      = commit s (fetchMovies s q reset (okResponse (m :: ms))
          (updateSearchCount fun _ _ => .stored)).updates ∧
    ∃ s1, commit s (fetchMovies s q reset (okResponse (m :: ms))
        (updateSearchCount write)).updates = .ok s1 ∧
      s1.errorMessage = "" ∧ s1.isLoading = false ∧ s1.movieList = some (m :: ms) := by
  have ht := truthy_of_ne hq
  simp [fetchMovies, fetchMoviesTry, okResponse, ht, updateSearchCount, hwrite, commit,
    applyUpdate]

/-- C5, for the query "batman" and a write that always fails. -/
theorem trending_write_failure_swallowed_witness :
    ∃ s1, commit ⟨"batman", some [], false, "", 1⟩
        (fetchMovies ⟨"batman", some [], false, "", 1⟩ "batman" true
          (okResponse [⟨7, "Batman", none⟩])
          (updateSearchCount fun _ _ => .failed .networkError)).updates = .ok s1 ∧
      s1.errorMessage = "" ∧ s1.isLoading = false ∧
      s1.movieList = some [⟨7, "Batman", none⟩] :=
  (trending_write_failure_swallowed ⟨"batman", some [], false, "", 1⟩ "batman" true
    ⟨7, "Batman", none⟩ [] (fun _ _ => .failed .networkError) .networkError
    (by decide) rfl).2

/-- C9: for every prior state, query and reset flag, `isLoading` is false
when `fetchMovies` completes after a transport error, a non-2xx response, a
2xx response whose body does not parse, or a successful response; and after a
successful response the error message is the empty string, whatever it was
before.  In the successful case the prior list
is an array, and `updateSearchCount` is the spec model. -/
theorem loading_false_when_done (s : AppState) (q : String) (reset : Bool)
    (write : String → Movie → WriteOutcome) :
    (∀ net, (net = .networkError ∨ (∃ body, net = .response false body) ∨
        net = .response true .unparsable) →
      ∃ s1, commit s (fetchMovies s q reset net (updateSearchCount write)).updates = .ok s1 ∧
        s1.isLoading = false) ∧
    (∀ prev rs, s.movieList = some prev →
      ∃ s1, commit s (fetchMovies s q reset (okResponse rs) (updateSearchCount write)).updates
          = .ok s1 ∧
        s1.isLoading = false ∧ s1.errorMessage = "") := by
  constructor
  · rintro net (rfl | ⟨body, rfl⟩ | rfl) <;>
      simp [fetchMovies, fetchMoviesTry, commit, applyUpdate]
  · intro prev rs hprev
    by_cases hq : q = ""
    · subst hq
      cases reset <;>
        simp [fetchMovies, fetchMoviesTry, okResponse, truthy, commit, applyUpdate,
          discoverUpdater, spread, ParsedBody.getResults, hprev]
    · have ht := truthy_of_ne hq
      cases rs with
      | nil => simp [fetchMovies, fetchMoviesTry, okResponse, ht, commit, applyUpdate]
      | cons m ms =>
        cases hw : write q m <;>
          simp [fetchMovies, fetchMoviesTry, okResponse, ht, updateSearchCount, hw, commit,
            applyUpdate]

/-- C9, for a discover fetch in a state that still shows the error of an
earlier failed fetch: loading ends false and the error message is cleared. -/
theorem loading_false_when_done_witness :
    ∃ s1, commit ⟨"", some [], true, "Failed to fetch movies. Try again later.", 1⟩
        (fetchMovies ⟨"", some [], true, "Failed to fetch movies. Try again later.", 1⟩ "" false
          (okResponse [⟨1, "a", none⟩]) (updateSearchCount fun _ _ => .stored)).updates = .ok s1 ∧
      s1.isLoading = false ∧ s1.errorMessage = "" :=
  (loading_false_when_done ⟨"", some [], true, "Failed to fetch movies. Try again later.", 1⟩
    "" false (fun _ _ => .stored)).2 [] [⟨1, "a", none⟩] rfl

/-- C10, at a 2xx response whose parsed body has no `results`: in discover
mode with `reset = false` the updater installed by `fetchMovies` throws a
`TypeError` when the update is applied; with `reset = true` the list becomes a
value that is not an array, no error message is set, and the render throws;
in search mode the error is caught but the prior list is replaced by the
empty list. -/
theorem malformed_body_discover_escapes :
    commit ⟨"", some [⟨1, "a", none⟩], false, "", 2⟩
      (fetchMovies ⟨"", some [⟨1, "a", none⟩], false, "", 2⟩ "" false
        (.response true (.parsed (.object none))) (fun _ _ => .resolved)).updates
      = .error .typeError ∧
    commit ⟨"", some [⟨1, "a", none⟩], false, "", 2⟩
      (fetchMovies ⟨"", some [⟨1, "a", none⟩], false, "", 2⟩ "" true
        (.response true (.parsed (.object none))) (fun _ _ => .resolved)).updates
      = .ok ⟨"", none, false, "", 3⟩ ∧
    renderMovieSection ⟨"", none, false, "", 3⟩ = .error .typeError ∧
    commit ⟨"batman", some [⟨1, "a", none⟩], false, "", 2⟩
      (fetchMovies ⟨"batman", some [⟨1, "a", none⟩], false, "", 2⟩ "batman" true
        (.response true (.parsed (.object none))) (fun _ _ => .resolved)).updates
      = .ok ⟨"batman", some [], false, "Failed to fetch movies. Try again later.", 2⟩ := by
  refine ⟨?_, ?_, ?_, ?_⟩ <;> rfl

/-! ### Trailer lookup -/

theorem find?_first {α : Type} (p : α → Bool) (pre : List α) (v : α) (post : List α)
    (hpre : ∀ u ∈ pre, p u = false) (hv : p v = true) :
    (pre ++ v :: post).find? p = some v := by
  induction pre with
  | nil => simp [List.find?, hv]
  | cons a as ih =>
    have ha : p a = false := hpre a (by simp)
    have has : ∀ u ∈ as, p u = false := fun u hu => hpre u (by simp [hu])
    simp [List.find?, ha, ih has]

theorem find?_none_of_all_false {α : Type} (p : α → Bool) (xs : List α)
    (h : ∀ u ∈ xs, p u = false) : xs.find? p = none := by
  induction xs with
  | nil => rfl
  | cons a as ih =>
    have ha : p a = false := h a (by simp)
    have has : ∀ u ∈ as, p u = false := fun u hu => h u (by simp [hu])
    simp [List.find?, ha, ih has]

theorem find?_some_mem_and_holds {α : Type} (p : α → Bool) (xs : List α) (v : α)
    (h : xs.find? p = some v) : v ∈ xs ∧ p v = true := by
  induction xs with
  | nil => simp [List.find?] at h
  | cons a as ih =>
    by_cases ha : p a = true
    · simp [List.find?, ha] at h
      subst h
      exact ⟨by simp, ha⟩
    · have ha2 : p a = false := by simpa using ha
      simp [List.find?, ha2] at h
      obtain ⟨hm, hp⟩ := ih h
      exact ⟨by simp [hm], hp⟩

/-- C6 as stated fails: of two YouTube Trailer entries of which the first has
no key, `fetchTrailer` returns the key of the second, while the first entry
with site YouTube and type Trailer is the first one, whose key is absent. -/
theorem fetchTrailer_skips_keyless_entry :
    fetchTrailer (okResponse [⟨"YouTube", "Trailer", none⟩, ⟨"YouTube", "Trailer", some "abc"⟩])
      = some "abc" ∧
    selectTrailerAsSpecified [⟨"YouTube", "Trailer", none⟩, ⟨"YouTube", "Trailer", some "abc"⟩]
      = none ∧
    fetchTrailer (okResponse [⟨"YouTube", "Teaser", some "t1"⟩, ⟨"YouTube", "Trailer", none⟩])
      = some "t1" := by
  refine ⟨?_, ?_, ?_⟩ <;> decide

/-- C6, amended: on the entries of a successful videos response,
`fetchTrailer` returns the key of the first entry with site YouTube, type
Trailer and a truthy key when there is one; otherwise the key of the first
entry with site YouTube and a truthy key; otherwise `null`.  A returned key is
the non-empty key of a YouTube entry of the response. -/
theorem fetchTrailer_selects (results : List Video) :
    (∀ pre v post, results = pre ++ v :: post → isYouTubeTrailer v = true →
      (∀ u ∈ pre, isYouTubeTrailer u = false) →
      fetchTrailer (okResponse results) = v.key) ∧
    ((∀ u ∈ results, isYouTubeTrailer u = false) →
      ∀ pre v post, results = pre ++ v :: post → isYouTubeVideo v = true →
        (∀ u ∈ pre, isYouTubeVideo u = false) →
        fetchTrailer (okResponse results) = v.key) ∧
    ((∀ u ∈ results, isYouTubeVideo u = false) → fetchTrailer (okResponse results) = none) ∧
    (∀ k, fetchTrailer (okResponse results) = some k →
      ∃ v ∈ results, v.site = "YouTube" ∧ v.key = some k ∧ k ≠ "") := by
  refine ⟨?_, ?_, ?_, ?_⟩
  · intro pre v post hres hv hpre
    subst hres
    simp [fetchTrailer, okResponse, selectTrailer, find?_first isYouTubeTrailer pre v post hpre hv]
  · intro hnone pre v post hres hv hpre
    have h1 := find?_none_of_all_false isYouTubeTrailer results hnone
    subst hres
    simp [fetchTrailer, okResponse, selectTrailer, h1,
      find?_first isYouTubeVideo pre v post hpre hv]
  · intro hnone
    have h2 := find?_none_of_all_false isYouTubeVideo results hnone
    have h1 : results.find? isYouTubeTrailer = none := by
      apply find?_none_of_all_false
      intro u hu
      have := hnone u hu
      simp [isYouTubeVideo, isYouTubeTrailer] at this ⊢
      intro hs _
      exact this hs
    simp [fetchTrailer, okResponse, selectTrailer, h1, h2]
  · intro k hk
    have key : ∀ v : Video, isYouTubeVideo v = true → v.key = some k →
        v.site = "YouTube" ∧ v.key = some k ∧ k ≠ "" := by
      intro v hv hvk
      simp [isYouTubeVideo, hvk, truthyKey, truthy] at hv
      exact ⟨hv.1, hvk, hv.2⟩
    simp only [fetchTrailer, okResponse, selectTrailer] at hk
    split at hk
    · simp at hk
    · cases h1 : results.find? isYouTubeTrailer with
      | some v =>
        simp [h1] at hk
        obtain ⟨hm, hp⟩ := find?_some_mem_and_holds _ _ _ h1
        have hp2 : isYouTubeVideo v = true := by
          simp [isYouTubeTrailer] at hp
          simp [isYouTubeVideo, hp.1.1, hp.2]
        exact ⟨v, hm, key v hp2 hk⟩
      | none =>
        cases h2 : results.find? isYouTubeVideo with
        | some v =>
          simp [h1, h2] at hk
          obtain ⟨hm, hp⟩ := find?_some_mem_and_holds _ _ _ h2
          exact ⟨v, hm, key v hp hk⟩
        | none => simp [h1, h2] at hk

/-- C6, amended, on a response that lists a Vimeo trailer, a YouTube teaser
and a YouTube trailer: the key of the YouTube trailer is returned. -/
theorem fetchTrailer_selects_witness :
    fetchTrailer (okResponse [⟨"Vimeo", "Trailer", some "v0"⟩, ⟨"YouTube", "Teaser", some "t1"⟩,
      ⟨"YouTube", "Trailer", some "abc"⟩, ⟨"YouTube", "Trailer", some "def"⟩]) = some "abc" :=
  (fetchTrailer_selects [⟨"Vimeo", "Trailer", some "v0"⟩, ⟨"YouTube", "Teaser", some "t1"⟩,
      ⟨"YouTube", "Trailer", some "abc"⟩, ⟨"YouTube", "Trailer", some "def"⟩]).1
    [⟨"Vimeo", "Trailer", some "v0"⟩, ⟨"YouTube", "Teaser", some "t1"⟩]
    ⟨"YouTube", "Trailer", some "abc"⟩ [⟨"YouTube", "Trailer", some "def"⟩] rfl (by decide)
    (by decide)

/-! ### Trailer cache of a card -/

theorem handlePlayTrailer_resolved (id : Nat) (s : CardState) (net : FetchOutcome Video) :
    (handlePlayTrailer id s net).1.resolved = true := by
  unfold handlePlayTrailer
  by_cases hk : truthyKey s.trailerKey = true
  · simp [hk, CardState.resolved]
  · have hk2 : truthyKey s.trailerKey = false := by simpa using hk
    by_cases hu : s.trailerUnavailable = true
    · simp [hk2, hu, CardState.resolved]
    · have hu2 : s.trailerUnavailable = false := by simpa using hu
      by_cases hf : truthyKey (fetchTrailer net) = true
      · simp [hk2, hu2, hf, CardState.resolved]
      · have hf2 : truthyKey (fetchTrailer net) = false := by simpa using hf
        simp [hk2, hu2, hf2, CardState.resolved]

theorem handlePlayTrailer_of_resolved (id : Nat) (s : CardState) (net : FetchOutcome Video)
    (h : s.resolved = true) :
    handlePlayTrailer id s net = ({ s with modalVisible := true }, []) := by
  unfold handlePlayTrailer
  simp only [CardState.resolved, Bool.or_eq_true] at h
  rcases h with h | h <;> simp [h]

theorem runCard_of_resolved (id : Nat) (evs : List CardEvent) :
    ∀ s : CardState, s.resolved = true →
      (runCard id s evs).2 = [] ∧
      (runCard id s evs).1.trailerKey = s.trailerKey ∧
      (runCard id s evs).1.trailerUnavailable = s.trailerUnavailable := by
  induction evs with
  | nil => intro s _; simp [runCard]
  | cons ev evs ih =>
    intro s hs
    cases ev with
    | play net =>
      have hp := handlePlayTrailer_of_resolved id s net hs
      have := ih { s with modalVisible := true } (by simpa [CardState.resolved] using hs)
      simpa [runCard, hp] using this
    | close =>
      have := ih (handleCloseTrailer s) (by simpa [CardState.resolved, handleCloseTrailer] using hs)
      simpa [runCard, handleCloseTrailer] using this

/-- C7: after any play request on a card has completed, no later sequence of
play and close events on that card calls the videos endpoint;
`handlePlayTrailer` fetches exactly when `trailerKey` is falsy and
`trailerUnavailable` is false; and once `trailerUnavailable` is true it stays
true under every sequence of events. -/
theorem trailer_lookup_not_repeated (id : Nat) (s : CardState) (net : FetchOutcome Video)
    (evs : List CardEvent) :
    (runCard id (handlePlayTrailer id s net).1 evs).2 = [] ∧
    ((handlePlayTrailer id s net).2 = [.fetch (.videos id)] ↔
      (truthyKey s.trailerKey = false ∧ s.trailerUnavailable = false)) ∧
    ((handlePlayTrailer id s net).2 ≠ [.fetch (.videos id)] → (handlePlayTrailer id s net).2 = []) ∧
    (s.trailerUnavailable = true → (runCard id s evs).1.trailerUnavailable = true) := by
  refine ⟨?_, ?_, ?_, ?_⟩
  · exact (runCard_of_resolved id evs _ (handlePlayTrailer_resolved id s net)).1
  · unfold handlePlayTrailer
    cases hk : truthyKey s.trailerKey <;> cases hu : s.trailerUnavailable <;>
      cases hf : truthyKey (fetchTrailer net) <;> simp [hf]
  · unfold handlePlayTrailer
    cases hk : truthyKey s.trailerKey <;> cases hu : s.trailerUnavailable <;>
      cases hf : truthyKey (fetchTrailer net) <;> simp [hf]
  · intro hu
    have hs : s.resolved = true := by simp [CardState.resolved, hu]
    rw [(runCard_of_resolved id evs s hs).2.2, hu]

/-- C7, on a fresh card whose first lookup finds no YouTube entry: the card
is marked unavailable by the first play request, and two further play
requests, whose lookups would succeed, make no call. -/
theorem trailer_lookup_not_repeated_witness :
    (handlePlayTrailer 550 CardState.init (okResponse [⟨"Vimeo", "Trailer", some "v0"⟩])).1
      = ⟨none, true, false, true⟩ ∧
    (runCard 550
      (handlePlayTrailer 550 CardState.init (okResponse [⟨"Vimeo", "Trailer", some "v0"⟩])).1
      [.play (okResponse [⟨"YouTube", "Trailer", some "abc"⟩]), .close,
        .play (okResponse [⟨"YouTube", "Trailer", some "abc"⟩])]).2 = [] :=
  ⟨by decide,
    (trailer_lookup_not_repeated 550 CardState.init (okResponse [⟨"Vimeo", "Trailer", some "v0"⟩])
      [.play (okResponse [⟨"YouTube", "Trailer", some "abc"⟩]), .close,
        .play (okResponse [⟨"YouTube", "Trailer", some "abc"⟩])]).1⟩

/-! ### The sentinel observer -/

theorem rerenders_retired_unobserved (history : List (String × Bool)) :
    (∀ o ∈ (rerenders history).retired, o.observing = false) ∧
    (∀ o, (rerenders history).current = some o → o.observing = o.currentLoader) := by
  unfold rerenders
  have gen : ∀ st : ObserverState,
      ((∀ o ∈ st.retired, o.observing = false) ∧
        (∀ o, st.current = some o → o.observing = o.currentLoader)) →
      ((∀ o ∈ (history.foldl (fun st d => rerender st d.1 d.2) st).retired,
          o.observing = false) ∧
        (∀ o, (history.foldl (fun st d => rerender st d.1 d.2) st).current = some o →
          o.observing = o.currentLoader)) := by
    induction history with
    | nil => intro st h; simpa using h
    | cons d ds ih =>
      intro st h
      simp only [List.foldl_cons]
      apply ih
      constructor
      · intro o ho
        cases hc : st.current with
        | none =>
          simp [rerender, hc] at ho
          exact h.1 o ho
        | some c =>
          simp [rerender, hc] at ho
          rcases ho with rfl | ho
          · have hcl := h.2 c hc
            unfold Observer.cleanup
            cases hl : c.currentLoader
            · simp [hl] at hcl ⊢
              exact hcl
            · simp
          · exact h.1 o ho
      · intro o ho
        simp only [rerender, observerEffect] at ho
        split at ho
        · simp at ho
        · simp at ho
          subst ho
          rfl
  exact gen ObserverState.init (by simp [ObserverState.init])

/-- C8: after the effect has run for a non-empty committed term, whatever
renders came before, no observer exists for that run, every earlier observer
has been unobserved, and a sentinel-visibility event calls `fetchMovies` zero
times.  After it has run for the empty term, a sentinel-visibility event calls
`fetchMovies("", false)` once when the sentinel intersects and `isLoading` is
false, and makes no call otherwise. -/
theorem sentinel_fetch_gate (history : List (String × Bool)) (term : String)
    (isLoading isIntersecting : Bool) :
    (term ≠ "" →
      (rerender (rerenders history) term isLoading).current = none ∧
      (∀ o ∈ (rerender (rerenders history) term isLoading).retired, o.observing = false) ∧
      sentinelVisibility (rerender (rerenders history) term isLoading) isIntersecting = []) ∧
    (term = "" →
      sentinelVisibility (rerender (rerenders history) term isLoading) isIntersecting
        = if isIntersecting && !isLoading then [⟨"", false⟩] else []) := by
  obtain ⟨hret, hcur⟩ := rerenders_retired_unobserved history
  have hret2 : ∀ o ∈ (rerender (rerenders history) term isLoading).retired,
      o.observing = false := by
    intro o ho
    cases hc : (rerenders history).current with
    | none =>
      simp [rerender, hc] at ho
      exact hret o ho
    | some c =>
      simp [rerender, hc] at ho
      rcases ho with rfl | ho
      · have hcl := hcur c hc
        unfold Observer.cleanup
        cases hl : c.currentLoader
        · simp [hl] at hcl ⊢
          exact hcl
        · simp
      · exact hret o ho
  have hfilter : (rerender (rerenders history) term isLoading).retired.filter
      (fun o => o.observing) = [] := by
    rw [List.filter_eq_nil_iff]
    intro o ho
    simp [hret2 o ho]
  constructor
  · intro hterm
    have ht := truthy_of_ne hterm
    have hnone : (rerender (rerenders history) term isLoading).current = none := by
      simp [rerender, observerEffect, ht]
    refine ⟨hnone, hret2, ?_⟩
    simp [sentinelVisibility, hnone, hfilter]
  · intro hterm
    subst hterm
    have hsome : (rerender (rerenders history) "" isLoading).current
        = some ⟨isLoading, true, true⟩ := by
      simp [rerender, observerEffect, sentinelRendered, truthy]
    simp [sentinelVisibility, hsome, hfilter, Observer.callback]

/-- C8, after a mount with the empty term, a load, and a change of the
committed term to "batman": a visible sentinel triggers no fetch. -/
theorem sentinel_fetch_gate_witness :
    sentinelVisibility (rerender (rerenders [("", false), ("", true), ("", false)]) "batman" false)
      true = [] :=
  ((sentinel_fetch_gate [("", false), ("", true), ("", false)] "batman" false true).1
    (by decide)).2.2

end MovieTrailers
